import Mathlib

/-!
Verification of the Legolas backend (`src/backend/main.py`).

The program is a single FastAPI handler:

```python
@app.get("/config")
def get_config():
    return {
        "COSMOS_DB_ENDPOINT": os.getenv("COSMOS_DB_ENDPOINT", "NOT_SET"),
        "AIDIAGEXPERT_ENDPOINT": os.getenv("AIDIAGEXPERT_ENDPOINT", "NOT_SET"),
        "AIDIAGEXPERT_KEY": os.getenv("AIDIAGEXPERT_KEY", "NOT_SET"),
        "AZURE_STORAGE_CONNECTION_STRING_1": os.getenv("AZURE_STORAGE_CONNECTION_STRING_1", "NOT_SET")
    }
```

We embed the process environment as a partial map `String → Option String`,
`os.getenv` as lookup-with-default, the returned Python dict as an
insertion-ordered association list (Python dicts preserve insertion order,
and FastAPI serializes them in that order), and FastAPI's wrapping of the
returned dict as a `Response` with status 200, content-type
`application/json`, and a body rendered from a JSON value.
-/

/-- Env models the process environment: a partial map from variable names to
string values. `none` means the variable is absent. -/
def Env : Type := String → Option String

/-- Embedding of Python's `os.getenv(key, default)`: the variable's value when
present (including the empty string), otherwise the default. -/
def getenv (env : Env) (key default : String) : String :=
  (env key).getD default

/-- The four fixed keys of the `/config` response, in the order they appear in
the dict literal in `get_config`. -/
def configKeys : List String :=
  ["COSMOS_DB_ENDPOINT", "AIDIAGEXPERT_ENDPOINT", "AIDIAGEXPERT_KEY",
   "AZURE_STORAGE_CONNECTION_STRING_1"]

/-- Embedding of the body of `get_config` in `src/backend/main.py`: the
returned dict, as an insertion-ordered association list. -/
def get_config (env : Env) : List (String × String) :=
  [("COSMOS_DB_ENDPOINT", getenv env "COSMOS_DB_ENDPOINT" "NOT_SET"),
   ("AIDIAGEXPERT_ENDPOINT", getenv env "AIDIAGEXPERT_ENDPOINT" "NOT_SET"),
   ("AIDIAGEXPERT_KEY", getenv env "AIDIAGEXPERT_KEY" "NOT_SET"),
   ("AZURE_STORAGE_CONNECTION_STRING_1",
    getenv env "AZURE_STORAGE_CONNECTION_STRING_1" "NOT_SET")]

/-- JSON values, enough for what FastAPI serializes here: strings and objects
with ordered fields. -/
inductive Json where
  | str : String → Json
  | obj : List (String × Json) → Json

/-- Hex digit for JSON string escapes. -/
def hexDigit (n : Nat) : Char :=
  if n < 10 then Char.ofNat (n + 48) else Char.ofNat (n - 10 + 97)

/-- JSON escaping of a single character, following `json.dumps` for the
characters that require escaping. -/
def escapeChar (c : Char) : String :=
  if c = '"' then "\\\""
  else if c = '\\' then "\\\\"
  else if c = '\n' then "\\n"
  else if c = '\t' then "\\t"
  else if c = '\r' then "\\r"
  else if c.toNat < 0x20 then
    "\\u00" ++ String.mk [hexDigit (c.toNat / 16), hexDigit (c.toNat % 16)]
  else String.singleton c

/-- Render a JSON string literal, with quotes and escapes. -/
def renderString (s : String) : String :=
  "\"" ++ String.join (s.toList.map escapeChar) ++ "\""

mutual
/-- Compact rendering of a JSON value, as FastAPI's JSONResponse produces. -/
def Json.render : Json → String
  | .str s => renderString s
  | .obj fs => "\x7b" ++ renderFields fs ++ "\x7d"

/-- Render the comma-separated fields of a JSON object. -/
def renderFields : List (String × Json) → String
  | [] => ""
  | [(k, v)] => renderString k ++ ":" ++ Json.render v
  | (k, v) :: p :: rest =>
      renderString k ++ ":" ++ Json.render v ++ "," ++ renderFields (p :: rest)
end

/-- The JSON value FastAPI builds from the dict returned by `get_config`. -/
def jsonOfConfig (d : List (String × String)) : Json :=
  Json.obj (d.map fun p => (p.1, Json.str p.2))

/-- An HTTP response: status code, content type, body bytes (as a string). -/
structure Response where
  status : Nat
  contentType : String
  body : String
deriving DecidableEq

/-- Embedding of the full `GET /config` round trip: FastAPI calls
`get_config`, serializes the returned dict as JSON, and wraps it with status
200 and content-type `application/json`. -/
def handleConfig (env : Env) : Response :=
  { status := 200
    contentType := "application/json"
    body := Json.render (jsonOfConfig (get_config env)) }

/-- State-passing embedding of `get_config`: each `os.getenv` call reads the
environment and leaves it unchanged, mirroring that the handler only reads
process state. Returns the dict together with the environment after the
handler runs. -/
def getenvSt (key default : String) (env : Env) : String × Env :=
  ((env key).getD default, env)

/-- The body of `get_config` with the environment threaded explicitly through
the four `os.getenv` calls. -/
def get_config_st (env : Env) : List (String × String) × Env :=
  let r1 := getenvSt "COSMOS_DB_ENDPOINT" "NOT_SET" env
  let r2 := getenvSt "AIDIAGEXPERT_ENDPOINT" "NOT_SET" r1.2
  let r3 := getenvSt "AIDIAGEXPERT_KEY" "NOT_SET" r2.2
  let r4 := getenvSt "AZURE_STORAGE_CONNECTION_STRING_1" "NOT_SET" r3.2
  ([("COSMOS_DB_ENDPOINT", r1.1),
    ("AIDIAGEXPERT_ENDPOINT", r2.1),
    ("AIDIAGEXPERT_KEY", r3.1),
    ("AZURE_STORAGE_CONNECTION_STRING_1", r4.1)], r4.2)

/-- Point update of an environment: set or unset one variable. -/
def updateEnv (env : Env) (k : String) (v : Option String) : Env :=
  fun x => if x = k then v else env x

/-- A concrete environment used in witnesses: `COSMOS_DB_ENDPOINT` set,
`AIDIAGEXPERT_ENDPOINT` set to the empty string, the rest absent. -/
def envA : Env :=
  fun x =>
    if x = "COSMOS_DB_ENDPOINT" then some "https://example.cosmos.azure.com"
    else if x = "AIDIAGEXPERT_ENDPOINT" then some ""
    else none

/-- A concrete environment with all four keys set. -/
def envB : Env :=
  fun x =>
    if x = "COSMOS_DB_ENDPOINT" then some "c"
    else if x = "AIDIAGEXPERT_ENDPOINT" then some "e"
    else if x = "AIDIAGEXPERT_KEY" then some "k"
    else if x = "AZURE_STORAGE_CONNECTION_STRING_1" then some "s"
    else none

/-- A concrete environment where `AIDIAGEXPERT_KEY` is set to the sentinel
string itself and the rest are absent. -/
def envSentinel : Env :=
  fun x => if x = "AIDIAGEXPERT_KEY" then some "NOT_SET" else none

/-- The empty environment: every variable absent. -/
def envEmpty : Env := fun _ => none

/-- `envB` extended with one unrelated variable, agreeing with `envB` on all
four config keys. -/
def envB' : Env :=
  fun x => if x = "OTHER" then some "o" else envB x

/-- C1: for every one of the four fixed keys, if the environment has that
variable set to a value `v` at request time (including `v = ""`), the
`GET /config` response field for that key equals `v` exactly. -/
theorem config_set_value (env : Env) (k v : String)
    (hk : k ∈ configKeys) (hv : env k = some v) :
    List.lookup k (get_config env) = some v := by
  fin_cases hk <;> simp +decide [get_config, getenv, hv, List.lookup]

/-- Witness for C1 at a concrete input: `AIDIAGEXPERT_ENDPOINT` is set to the
empty string in `envA`, and the response field is `""`, not `"NOT_SET"`. -/
theorem config_set_value_witness :
    "AIDIAGEXPERT_ENDPOINT" ∈ configKeys ∧
    envA "AIDIAGEXPERT_ENDPOINT" = some "" ∧
    List.lookup "AIDIAGEXPERT_ENDPOINT" (get_config envA) = some "" :=
  ⟨by decide, rfl, config_set_value envA "AIDIAGEXPERT_ENDPOINT" "" (by decide) rfl⟩

/-- C2: for every one of the four fixed keys, if the corresponding variable is
absent from the environment at request time, the response field for that key
equals the literal string `"NOT_SET"`. -/
theorem config_unset_sentinel (env : Env) (k : String)
    (hk : k ∈ configKeys) (hv : env k = none) :
    List.lookup k (get_config env) = some "NOT_SET" := by
  fin_cases hk <;> simp +decide [get_config, getenv, hv, List.lookup]

/-- Witness for C2 at a concrete input: `AIDIAGEXPERT_KEY` is absent in
`envA`, and the response field is the sentinel. -/
theorem config_unset_sentinel_witness :
    "AIDIAGEXPERT_KEY" ∈ configKeys ∧
    envA "AIDIAGEXPERT_KEY" = none ∧
    List.lookup "AIDIAGEXPERT_KEY" (get_config envA) = some "NOT_SET" :=
  ⟨by decide, rfl, config_unset_sentinel envA "AIDIAGEXPERT_KEY" (by decide) rfl⟩

/-- C3: for every environment, the response object contains exactly the four
keys, in particular no other environment variable leaks in and none of the
four is missing. -/
theorem config_exactly_four_keys (env : Env) :
    (get_config env).map Prod.fst = configKeys := rfl

/-- C4: two calls whose environments agree on the four keys (presence and
value) produce byte-identical responses; the response depends only on the
environment at call time. -/
theorem config_idempotent (env1 env2 : Env)
    (h : ∀ k ∈ configKeys, env1 k = env2 k) :
    handleConfig env1 = handleConfig env2 := by
  have h1 := h "COSMOS_DB_ENDPOINT" (by decide)
  have h2 := h "AIDIAGEXPERT_ENDPOINT" (by decide)
  have h3 := h "AIDIAGEXPERT_KEY" (by decide)
  have h4 := h "AZURE_STORAGE_CONNECTION_STRING_1" (by decide)
  simp [handleConfig, get_config, getenv, h1, h2, h3, h4]

/-- Witness for C4 at concrete inputs: `envB'` extends `envB` with an
unrelated variable, and the two responses coincide. -/
theorem config_idempotent_witness :
    (∀ k ∈ configKeys, envB k = envB' k) ∧ handleConfig envB = handleConfig envB' :=
  ⟨by decide, config_idempotent envB envB' (by decide)⟩

/-- C5: every call returns status 200, content-type `application/json`, and a
body that is the rendering of a JSON value (hence valid JSON), independent of
the environment. -/
theorem config_response_ok (env : Env) :
    (handleConfig env).status = 200 ∧
    (handleConfig env).contentType = "application/json" ∧
    ∃ j : Json, (handleConfig env).body = Json.render j :=
  ⟨rfl, rfl, ⟨jsonOfConfig (get_config env), rfl⟩⟩

/-- C6: the snapshot is built fresh per request: a change to one of the four
variables between two calls is reflected in the second response. -/
theorem config_fresh_per_request (env : Env) (k v : String)
    (hk : k ∈ configKeys) :
    List.lookup k (get_config (updateEnv env k (some v))) = some v := by
  fin_cases hk <;> simp +decide [get_config, getenv, updateEnv, List.lookup]

/-- Witness for C6 at a concrete input: starting from the empty environment,
setting `COSMOS_DB_ENDPOINT` to `"fresh"` is reflected in the next call. -/
theorem config_fresh_per_request_witness :
    "COSMOS_DB_ENDPOINT" ∈ configKeys ∧
    List.lookup "COSMOS_DB_ENDPOINT"
      (get_config (updateEnv envEmpty "COSMOS_DB_ENDPOINT" (some "fresh"))) =
      some "fresh" :=
  ⟨by decide, config_fresh_per_request envEmpty "COSMOS_DB_ENDPOINT" "fresh" (by decide)⟩

/-- C7: the operation cannot fail: every environment yields a 200 response,
and a missing variable yields the sentinel value rather than any error
result. -/
theorem config_cannot_fail (env : Env) :
    (handleConfig env).status = 200 ∧
    ∀ k ∈ configKeys, env k = none →
      List.lookup k (get_config env) = some "NOT_SET" := by
  refine ⟨rfl, ?_⟩
  intro k hk hnone
  fin_cases hk <;> simp_all +decide [get_config, getenv, List.lookup]

/-- Witness for C7 at a concrete input: the empty environment gives status
200 and the sentinel for a missing key. -/
theorem config_cannot_fail_witness :
    (handleConfig envEmpty).status = 200 ∧
    List.lookup "AIDIAGEXPERT_KEY" (get_config envEmpty) = some "NOT_SET" :=
  ⟨(config_cannot_fail envEmpty).1,
   (config_cannot_fail envEmpty).2 "AIDIAGEXPERT_KEY" (by decide) rfl⟩

/-- C8: the handler has no side effects: threading the environment explicitly
through the four `os.getenv` reads leaves it unchanged, and the produced dict
is the same as the pure handler's. -/
theorem config_no_side_effects (env : Env) :
    (get_config_st env).2 = env ∧ (get_config_st env).1 = get_config env :=
  ⟨rfl, rfl⟩

/-- C9: when all four variables are set, the keys of the response appear in
the order COSMOS_DB_ENDPOINT, AIDIAGEXPERT_ENDPOINT, AIDIAGEXPERT_KEY,
AZURE_STORAGE_CONNECTION_STRING_1 (and this order in fact holds for every
environment). -/
theorem config_key_order (env : Env)
    (h : ∀ k ∈ configKeys, (env k).isSome) :
    (get_config env).map Prod.fst = configKeys := rfl

/-- Witness for C9 at a concrete input: `envB` sets all four variables and
the key order is as listed. -/
theorem config_key_order_witness :
    (∀ k ∈ configKeys, (envB k).isSome) ∧
    (get_config envB).map Prod.fst = configKeys :=
  ⟨by decide, config_key_order envB (by decide)⟩

/-- C10: an environment where one of the four keys is set to the literal
string `"NOT_SET"` is indistinguishable, through the response, from one where
that key is unset and everything else agrees. -/
theorem config_sentinel_indistinguishable (env1 env2 : Env) (k : String)
    (hk : k ∈ configKeys)
    (h1 : env1 k = some "NOT_SET") (h2 : env2 k = none)
    (hagree : ∀ x, x ≠ k → env1 x = env2 x) :
    handleConfig env1 = handleConfig env2 := by
  have key : ∀ x : String, getenv env1 x "NOT_SET" = getenv env2 x "NOT_SET" := by
    intro x
    by_cases hx : x = k
    · subst hx; simp [getenv, h1, h2]
    · simp [getenv, hagree x hx]
  simp [handleConfig, get_config, key]

/-- Witness for C10 at concrete inputs: `envSentinel` sets
`AIDIAGEXPERT_KEY` to `"NOT_SET"`, `envEmpty` leaves it unset, and the two
responses are identical. -/
theorem config_sentinel_indistinguishable_witness :
    envSentinel "AIDIAGEXPERT_KEY" = some "NOT_SET" ∧
    envEmpty "AIDIAGEXPERT_KEY" = none ∧
    handleConfig envSentinel = handleConfig envEmpty :=
  ⟨rfl, rfl,
   config_sentinel_indistinguishable envSentinel envEmpty "AIDIAGEXPERT_KEY"
     (by decide) rfl rfl (fun x hx => by simp [envSentinel, envEmpty, hx])⟩
